import Mathlib

/-!
Verification of the nginx-sys build script (`nginx-sys/build.rs`) against its
natural-language specification.

The script is shallowly embedded as pure Lean functions.  External effects are
made explicit:

* the cache directory's files are a finite association list from path strings
  to file sizes (`FsFiles`);
* the network is a parameter giving the byte size of the body a URL download
  would produce;
* the external `gpg` tool is a parameter: its availability (the result of
  `which("gpg")`) and the success of each of its subcommand invocations
  (`--recv-keys`, `--list-packets`, `--verify`);
* `println!`/`eprintln!` output is collected in explicit output lists;
* a Rust panic is modelled as `Option.none`, a fallible `Result` as `Except`.

Paths are plain strings; `Path::join` is string concatenation with a slash.
-/

/-- Cache-directory contents: (path, file size in bytes) pairs, at most one
entry per path (maintained by `fsInsert` / `fsRemove`). -/
abbrev FsFiles := List (String × Nat)

/-- File lookup: `some size` iff the file exists (with that size). -/
def fsLookup : FsFiles → String → Option Nat
  | [], _ => none
  | e :: rest, p => if e.1 = p then some e.2 else fsLookup rest p

/-- `std::fs::remove_file`. -/
def fsRemove (fs : FsFiles) (p : String) : FsFiles :=
  fs.filter (fun e => e.1 != p)

/-- `File::create` followed by writing `n` bytes: truncates/overwrites. -/
def fsInsert (fs : FsFiles) (p : String) (n : Nat) : FsFiles :=
  (p, n) :: fsRemove fs p

/-- `Path::join` on string paths. -/
def path_join (a b : String) : String :=
  a ++ "/" ++ b

/-- Splitting a character list at every character satisfying `p`, keeping
empty pieces — the semantics of Rust's `str::split` with a char/char-class
pattern (structurally recursive so that concrete inputs evaluate). -/
def splitPred (p : Char → Bool) : List Char → List (List Char)
  | [] => [[]]
  | c :: cs =>
    if p c then [] :: splitPred p cs
    else
      match splitPred p cs with
      | [] => [[c]]
      | h :: t => (c :: h) :: t

/-- Splitting a character list on every non-overlapping occurrence of the
(non-empty) separator `sep`, scanning left to right — the semantics of Rust's
`str::split` with a string pattern.  `fuel` bounds the recursion; any
`fuel ≥ length` gives the exact answer since every step consumes a
character. -/
def splitSep (sep : List Char) : Nat → List Char → List (List Char)
  | _, [] => [[]]
  | 0, l => [l]
  | fuel + 1, c :: cs =>
    if sep.isPrefixOf (c :: cs) then
      [] :: splitSep sep fuel (List.drop sep.length (c :: cs))
    else
      match splitSep sep fuel cs with
      | [] => [[c]]
      | h :: t => (c :: h) :: t

/-- Rust `s.split(c)` for a `char` pattern, as a list of strings. -/
def rs_split_char (c : Char) (s : String) : List String :=
  (splitPred (fun a => a == c) s.data).map String.mk

/-- Rust `s.split(sep)` for a string pattern, as a list of strings. -/
def rs_split (sep s : String) : List String :=
  (splitSep sep.data (s.data.length + 1) s.data).map String.mk

/-- Rust `s.strip_prefix(pre)`. -/
def rs_strip_start (pre s : String) : Option String :=
  if pre.data.isPrefixOf s.data then some (String.mk (s.data.drop pre.data.length))
  else none

/-- Rust `s.strip_suffix(c)` for a `char` pattern. -/
def rs_strip_end_char (c : Char) (s : String) : Option String :=
  match s.data.reverse with
  | [] => none
  | a :: rest => if a == c then some (String.mk rest.reverse) else none

/-- Rust `s.trim()`: whitespace removed from both ends. -/
def rs_trim (s : String) : String :=
  String.mk (((s.data.dropWhile Char.isWhitespace).reverse.dropWhile
    Char.isWhitespace).reverse)

/-- Rust `s.join(sep)` / `[T]::join`. -/
def joinSep (sep : String) : List String → String
  | [] => ""
  | [a] => a
  | a :: as => a ++ sep ++ joinSep sep as

/-- `url.split('/').last().unwrap()` — the final path segment of a URL.
The split is never empty, so the `unwrap` cannot fail and the default of
`getLastD` is never used. -/
def lastSegment (url : String) : String :=
  (rs_split_char '/' url).getLastD ""

/-- Inner helper of `download` in build.rs:
`!file_path.exists() || file_path.metadata().map_or(false, |m| m.len() < 1)`.
In the model a file that exists always has readable metadata. -/
def proceed_with_download (fs : FsFiles) (p : String) : Bool :=
  match fsLookup fs p with
  | none => true
  | some len => decide (len < 1)

/-- Result of `download`: the cache contents afterwards, whether a network
retrieval happened, and the returned local path. -/
structure DlResult where
  fs : FsFiles
  fetched : Bool
  path : String
deriving Repr, DecidableEq

/-- `download(cache_dir, url)` from build.rs.  `body` is the size of the
response body the network would deliver for `url`. -/
def download (fs : FsFiles) (cacheDir url : String) (body : Nat) : DlResult :=
  if proceed_with_download fs (path_join cacheDir (lastSegment url)) then
    { fs := fsInsert fs (path_join cacheDir (lastSegment url)) body, fetched := true,
      path := path_join cacheDir (lastSegment url) }
  else
    { fs := fs, fetched := false, path := path_join cacheDir (lastSegment url) }

/-- `is_err()` on a `Result`. -/
def isErr {ε α : Type} (r : Except ε α) : Bool :=
  match r with
  | Except.error _ => true
  | Except.ok _ => false

/-- `verify_signature_file(cache_dir, signature_path)` from build.rs.
`gpg` is the result of `which("gpg")`; `listPacketsOk` is the exit status of
the external `gpg --list-packets` invocation.  First component: the lines
printed (the captured tool diagnostic on failure is external text and is left
out; only the skip warning matters to the spec). -/
def verify_signature_file (gpg : Option String) (listPacketsOk : Bool)
    (signaturePath : String) : List String × Except String Unit :=
  match gpg with
  | some _ =>
    if listPacketsOk then ([], Except.ok ())
    else ([], Except.error
      ("GPG signature file verification failed for signature: " ++ signaturePath))
  | none => (["GPG not found, skipping signature file verification"], Except.ok ())

/-- `verify_archive_signature(cache_dir, archive_path, signature_path)` from
build.rs.  `verifyOk` is the exit status of the external `gpg --verify`
invocation. -/
def verify_archive_signature (gpg : Option String) (verifyOk : Bool)
    (archivePath _signaturePath : String) : List String × Except String Unit :=
  match gpg with
  | some _ =>
    if verifyOk then ([], Except.ok ())
    else ([], Except.error
      ("GPG signature verification failed of archive failed [" ++ archivePath ++ "]"))
  | none => (["GPG not found, skipping signature verification"], Except.ok ())

/-- The external environment `get_archive` runs in: the `which("gpg")` result,
the exit statuses of the two gpg subcommands (as functions of the paths they
are invoked on), and the network response sizes for the two URLs. -/
structure NetEnv where
  gpg : Option String
  listPacketsOk : String → Bool
  verifyOk : String → String → Bool
  sigBody : Nat
  archBody : Nat

/-- `get_archive(cache_dir, archive_url, signature_url)` from build.rs:
download the signature, check its form (deleting it on failure), download the
archive, verify it against the signature (deleting the archive on failure). -/
def get_archive (env : NetEnv) (fs : FsFiles) (cacheDir archiveUrl signatureUrl : String) :
    FsFiles × Except String String :=
  let r1 := download fs cacheDir signatureUrl env.sigBody
  match (verify_signature_file env.gpg (env.listPacketsOk r1.path) r1.path).2 with
  | Except.error e => (fsRemove r1.fs r1.path, Except.error e)
  | Except.ok _ =>
    let r2 := download r1.fs cacheDir archiveUrl env.archBody
    match (verify_archive_signature env.gpg (env.verifyOk r2.path r1.path) r2.path r1.path).2 with
    | Except.ok _ => (r2.fs, Except.ok r2.path)
    | Except.error e => (fsRemove r2.fs r2.path, Except.error e)

/-- Claim C6: `download` performs a network retrieval if and only if the local
path (cache root joined with the URL's final path segment) does not exist as a
file of non-zero length — absent and zero-length files both trigger retrieval —
and the local path is returned whether or not a retrieval occurred. -/
theorem download_retrieves_iff_absent_or_empty (fs : FsFiles) (cacheDir url : String)
    (body : Nat) :
    (download fs cacheDir url body).path = path_join cacheDir (lastSegment url) ∧
    ((download fs cacheDir url body).fetched = true ↔
      ¬ ∃ n, fsLookup fs (path_join cacheDir (lastSegment url)) = some n ∧ 0 < n) := by
  unfold download proceed_with_download
  cases h : fsLookup fs (path_join cacheDir (lastSegment url)) with
  | none => simp [h]
  | some len =>
    simp only [h]
    refine ⟨by split <;> rfl, ?_⟩
    by_cases hl : len < 1
    · simp [hl]
      omega
    · simp [hl]
      omega

theorem fsLookup_fsRemove_self (fs : FsFiles) (p : String) :
    fsLookup (fsRemove fs p) p = none := by
  induction fs with
  | nil => rfl
  | cons e rest ih =>
    by_cases h : e.1 = p
    · simpa [fsRemove, List.filter_cons, h] using ih
    · simpa [fsRemove, List.filter_cons, fsLookup, h] using ih

theorem fsLookup_fsRemove_ne (fs : FsFiles) (p q : String) (h : p ≠ q) :
    fsLookup (fsRemove fs q) p = fsLookup fs p := by
  induction fs with
  | nil => rfl
  | cons e rest ih =>
    by_cases he : e.1 = q
    · have hne : e.1 ≠ p := by
        rw [he]
        exact Ne.symm h
      simpa [fsRemove, List.filter_cons, fsLookup, he, hne, Ne.symm h] using ih
    · by_cases hp : e.1 = p
      · simp [fsRemove, List.filter_cons, fsLookup, he, hp, h]
      · simpa [fsRemove, List.filter_cons, fsLookup, he, hp] using ih

theorem fsLookup_fsInsert_self (fs : FsFiles) (p : String) (n : Nat) :
    fsLookup (fsInsert fs p n) p = some n := by
  simp [fsInsert, fsLookup]

theorem fsLookup_fsInsert_ne (fs : FsFiles) (p q : String) (n : Nat) (h : p ≠ q) :
    fsLookup (fsInsert fs q n) p = fsLookup fs p := by
  rw [fsInsert]
  rw [show fsLookup ((q, n) :: fsRemove fs q) p = fsLookup (fsRemove fs q) p by
    simp [fsLookup, Ne.symm h]]
  exact fsLookup_fsRemove_ne fs p q h

theorem download_path_eq (fs : FsFiles) (cacheDir url : String) (body : Nat) :
    (download fs cacheDir url body).path = path_join cacheDir (lastSegment url) := by
  unfold download
  split <;> rfl

theorem download_result_present (fs : FsFiles) (cacheDir url : String) (body : Nat) :
    ∃ n, fsLookup (download fs cacheDir url body).fs
      (path_join cacheDir (lastSegment url)) = some n := by
  unfold download
  cases h : proceed_with_download fs (path_join cacheDir (lastSegment url)) with
  | true =>
    exact ⟨body, by simp [h, fsLookup_fsInsert_self]⟩
  | false =>
    unfold proceed_with_download at h
    cases hl : fsLookup fs (path_join cacheDir (lastSegment url)) with
    | none =>
      rw [hl] at h
      simp at h
    | some len =>
      refine ⟨len, ?_⟩
      rw [hl] at h
      simp [proceed_with_download, hl, h]

theorem download_preserves_other (fs : FsFiles) (cacheDir url : String) (body : Nat)
    (p : String) (h : p ≠ path_join cacheDir (lastSegment url)) :
    fsLookup (download fs cacheDir url body).fs p = fsLookup fs p := by
  unfold download
  split
  · exact fsLookup_fsInsert_ne fs p (path_join cacheDir (lastSegment url)) body h
  · rfl

/-- Claim C1 counterexample: a well-formed signature paired with an archive
that fails verification.  `get_archive` returns an error and deletes the
archive, but the signature file `.cache/zlib-1.3.tar.gz.asc` is still present
in the cache afterwards (size 100), contradicting the claim that both files
are absent. -/
theorem get_archive_keeps_signature_cex :
    isErr (get_archive
      { gpg := some "gpg", listPacketsOk := fun _ => true,
        verifyOk := fun _ _ => false, sigBody := 100, archBody := 1000 }
      [] ".cache" "https://www.zlib.net/zlib-1.3.tar.gz"
      "https://www.zlib.net/zlib-1.3.tar.gz.asc").2 = true ∧
    fsLookup (get_archive
      { gpg := some "gpg", listPacketsOk := fun _ => true,
        verifyOk := fun _ _ => false, sigBody := 100, archBody := 1000 }
      [] ".cache" "https://www.zlib.net/zlib-1.3.tar.gz"
      "https://www.zlib.net/zlib-1.3.tar.gz.asc").1 ".cache/zlib-1.3.tar.gz.asc" =
      some 100 ∧
    fsLookup (get_archive
      { gpg := some "gpg", listPacketsOk := fun _ => true,
        verifyOk := fun _ _ => false, sigBody := 100, archBody := 1000 }
      [] ".cache" "https://www.zlib.net/zlib-1.3.tar.gz"
      "https://www.zlib.net/zlib-1.3.tar.gz.asc").1 ".cache/zlib-1.3.tar.gz" =
      none := by
  refine ⟨rfl, rfl, rfl⟩

/-- Claim C1 (amended): for every archive/signature pair where the signature
file is well-formed but archive verification against it fails (gpg being
available and the two cached file paths distinct), `get_archive` returns an
error and afterwards the archive file is absent from the cache directory,
while the signature file is still present. -/
theorem get_archive_verify_failure_cleanup (env : NetEnv) (fs : FsFiles)
    (cacheDir archiveUrl signatureUrl g : String)
    (hgpg : env.gpg = some g)
    (hsig : env.listPacketsOk (path_join cacheDir (lastSegment signatureUrl)) = true)
    (hver : env.verifyOk (path_join cacheDir (lastSegment archiveUrl))
              (path_join cacheDir (lastSegment signatureUrl)) = false)
    (hne : path_join cacheDir (lastSegment archiveUrl) ≠
              path_join cacheDir (lastSegment signatureUrl)) :
    isErr (get_archive env fs cacheDir archiveUrl signatureUrl).2 = true ∧
    fsLookup (get_archive env fs cacheDir archiveUrl signatureUrl).1
      (path_join cacheDir (lastSegment archiveUrl)) = none ∧
    ∃ n, fsLookup (get_archive env fs cacheDir archiveUrl signatureUrl).1
      (path_join cacheDir (lastSegment signatureUrl)) = some n := by
  unfold get_archive
  rw [hgpg]
  simp only [download_path_eq, hsig, verify_signature_file, verify_archive_signature,
    hver, if_true, Bool.false_eq_true, if_false]
  refine ⟨rfl, fsLookup_fsRemove_self _ _, ?_⟩
  rw [fsLookup_fsRemove_ne _ _ _ (Ne.symm hne)]
  rw [download_preserves_other _ _ _ _ _ (Ne.symm hne)]
  exact download_result_present fs cacheDir signatureUrl env.sigBody

/-- Witness for the amended claim C1 at a concrete input. -/
theorem get_archive_verify_failure_cleanup_witness :
    isErr (get_archive
      { gpg := some "gpg", listPacketsOk := fun _ => true,
        verifyOk := fun _ _ => false, sigBody := 7, archBody := 9 }
      [] ".cache" "https://nginx.org/download/nginx-1.24.0.tar.gz"
      "https://nginx.org/download/nginx-1.24.0.tar.gz.asc").2 = true ∧
    fsLookup (get_archive
      { gpg := some "gpg", listPacketsOk := fun _ => true,
        verifyOk := fun _ _ => false, sigBody := 7, archBody := 9 }
      [] ".cache" "https://nginx.org/download/nginx-1.24.0.tar.gz"
      "https://nginx.org/download/nginx-1.24.0.tar.gz.asc").1
      (path_join ".cache" (lastSegment "https://nginx.org/download/nginx-1.24.0.tar.gz")) =
      none ∧
    ∃ n, fsLookup (get_archive
      { gpg := some "gpg", listPacketsOk := fun _ => true,
        verifyOk := fun _ _ => false, sigBody := 7, archBody := 9 }
      [] ".cache" "https://nginx.org/download/nginx-1.24.0.tar.gz"
      "https://nginx.org/download/nginx-1.24.0.tar.gz.asc").1
      (path_join ".cache" (lastSegment "https://nginx.org/download/nginx-1.24.0.tar.gz.asc")) =
      some n :=
  get_archive_verify_failure_cleanup
    { gpg := some "gpg", listPacketsOk := fun _ => true,
      verifyOk := fun _ _ => false, sigBody := 7, archBody := 9 }
    [] ".cache" "https://nginx.org/download/nginx-1.24.0.tar.gz"
    "https://nginx.org/download/nginx-1.24.0.tar.gz.asc" "gpg"
    rfl rfl rfl (by decide)

/-- `build_info(nginx_configure_flags)` from build.rs: the configure flags
joined with single-space separators (`join(" ")`). -/
def build_info (nginx_configure_flags : List String) : String :=
  joinSep " " nginx_configure_flags

/-- The last-build-info comparison in `compile_nginx` (build.rs:458-462):
`persisted` is `some s` when the fingerprint file exists and reading it
succeeds with contents `s`, and `none` when the file is absent or unreadable
(`read_to_string(..).map_or(false, ..)`). -/
def build_info_no_change (persisted : Option String) (current : String) : Bool :=
  match persisted with
  | some s => s == current
  | none => false

/-- The rebuild decision in `compile_nginx` (build.rs:468):
`!nginx_binary_exists || !autoconf_makefile_exists || !build_info_no_change`. -/
def rebuild_required (binExists mkExists : Bool) (persisted : Option String)
    (current : String) : Bool :=
  !binExists || !mkExists || !(build_info_no_change persisted current)

/-- Outcome of the conditional block of `compile_nginx` (build.rs:468-475). -/
structure CompileOutcome where
  configureRan : Bool
  makeRan : Bool
  persistedAfter : Option String
  result : Except String Unit
deriving Repr

/-- The configure/build/persist step of `compile_nginx` (build.rs:468-475).
`configureOk`/`makeOk` are the exit statuses of the external `configure` and
`make install` child processes; either failing makes the corresponding `?`
propagate an error.  The fingerprint file is written (becoming
`some current`) only after both succeed. -/
def compile_step (binExists mkExists : Bool) (persisted : Option String)
    (current : String) (configureOk makeOk : Bool) : CompileOutcome :=
  if rebuild_required binExists mkExists persisted current then
    if !configureOk then
      { configureRan := true, makeRan := false, persistedAfter := persisted,
        result := Except.error "configure failed" }
    else if !makeOk then
      { configureRan := true, makeRan := true, persistedAfter := persisted,
        result := Except.error "make failed" }
    else
      { configureRan := true, makeRan := true, persistedAfter := some current,
        result := Except.ok () }
  else
    { configureRan := false, makeRan := false, persistedAfter := persisted,
      result := Except.ok () }

/-- Claim C2: `compile_nginx` runs the configure+build+install sequence iff at
least one of the three conditions holds — the nginx binary is absent, the
generated Makefile is absent, or the fresh fingerprint differs from the
persisted one (including absent/unreadable fingerprint files, which
`build_info_no_change` maps to `none`); when all three checks pass neither
configure nor make is invoked. -/
theorem compile_nginx_rebuild_decision (binExists mkExists : Bool)
    (persisted : Option String) (current : String) (configureOk makeOk : Bool) :
    (compile_step binExists mkExists persisted current configureOk makeOk).configureRan =
      (!binExists || !mkExists || !(build_info_no_change persisted current)) ∧
    (compile_step binExists mkExists persisted current configureOk makeOk).makeRan =
      ((!binExists || !mkExists || !(build_info_no_change persisted current)) &&
        configureOk) := by
  unfold compile_step rebuild_required
  cases h : (!binExists || !mkExists || !(build_info_no_change persisted current)) with
  | false => simp [h]
  | true =>
    cases configureOk with
    | false => simp [h]
    | true =>
      cases makeOk with
      | false => simp [h]
      | true => simp [h]

/-- Claim C3: the new fingerprint is persisted only after configure and
make(install) have both succeeded; if either fails during a required rebuild,
`compile_nginx` propagates the error, leaves the previously persisted
fingerprint (or its absence) unchanged, and the next invocation (same binary
and Makefile existence) again decides to rebuild. -/
theorem compile_nginx_persist_only_on_success (binExists mkExists : Bool)
    (persisted : Option String) (current : String) (configureOk makeOk : Bool)
    (hre : rebuild_required binExists mkExists persisted current = true)
    (hfail : configureOk = false ∨ makeOk = false) :
    isErr (compile_step binExists mkExists persisted current configureOk makeOk).result =
      true ∧
    (compile_step binExists mkExists persisted current configureOk makeOk).persistedAfter =
      persisted ∧
    rebuild_required binExists mkExists
      (compile_step binExists mkExists persisted current configureOk makeOk).persistedAfter
      current = true := by
  unfold compile_step
  rw [hre]
  rcases hfail with hc | hm
  · subst hc
    simp [isErr, hre]
  · subst hm
    cases configureOk with
    | false => simp [isErr, hre]
    | true => simp [isErr, hre]

/-- Witness for claim C3 at a concrete input: binary present, Makefile
present, fingerprint differs ("old" vs "new"), configure succeeds, make
fails. -/
theorem compile_nginx_persist_only_on_success_witness :
    isErr (compile_step true true (some "old") "new" true false).result = true ∧
    (compile_step true true (some "old") "new" true false).persistedAfter =
      some "old" ∧
    rebuild_required true true
      (compile_step true true (some "old") "new" true false).persistedAfter
      "new" = true :=
  compile_nginx_persist_only_on_success true true (some "old") "new" true false
    (by decide) (Or.inr rfl)

/-- `NGX_BASE_MODULES` from build.rs: the fixed 20-entry module list, with
`--with-http_slice_module` duplicated exactly as in the source. -/
def NGX_BASE_MODULES : List String := [
  "--with-compat",
  "--with-http_addition_module",
  "--with-http_auth_request_module",
  "--with-http_flv_module",
  "--with-http_gunzip_module",
  "--with-http_gzip_static_module",
  "--with-http_random_index_module",
  "--with-http_realip_module",
  "--with-http_secure_link_module",
  "--with-http_slice_module",
  "--with-http_slice_module",
  "--with-http_ssl_module",
  "--with-http_stub_status_module",
  "--with-http_sub_module",
  "--with-http_v2_module",
  "--with-stream_realip_module",
  "--with-stream_ssl_module",
  "--with-stream_ssl_preread_module",
  "--with-stream",
  "--with-threads"]

/-- `NGX_LINUX_ADDITIONAL_OPTS` from build.rs. -/
def NGX_LINUX_ADDITIONAL_OPTS : List String := [
  "--with-file-aio",
  "--with-cc-opt=-g -fstack-protector-strong -Wformat -Werror=format-security -Wp,-D_FORTIFY_SOURCE=2 -fPIC",
  "--with-ld-opt=-Wl,-Bsymbolic-functions -Wl,-z,relro -Wl,-z,now -Wl,--as-needed -pie"]

/-- `format_source_path(flag, path)` inside `nginx_configure_flags`. -/
def format_source_path (flag path : String) : String :=
  flag ++ "=" ++ path

/-- `nginx_configure_flags(..)` from build.rs.  `ngxDebug` and `targetOs` are
the values of the `NGX_DEBUG` and `CARGO_CFG_TARGET_OS` environment variables
(`none` when unset), `constsOs` is `std::env::consts::OS`; the directory
arguments are the install dir and the three extracted dependency source
dirs. -/
def nginx_configure_flags (ngxDebug targetOs : Option String) (constsOs : String)
    (nginxInstallDir zlibSrcDir opensslSrcDir pcre2SrcDir : String) : List String :=
  let modules :=
    [format_source_path "--with-zlib" zlibSrcDir,
     format_source_path "--with-pcre" pcre2SrcDir,
     format_source_path "--with-openssl" opensslSrcDir] ++ NGX_BASE_MODULES
  let opts1 := [format_source_path "--prefix" nginxInstallDir]
  let opts2 := if ngxDebug.elim false (fun s => s == "true") then
      opts1 ++ ["--with-debug"]
    else opts1
  let opts3 := if targetOs.elim (constsOs == "linux") (fun s => s == "linux") then
      opts2 ++ NGX_LINUX_ADDITIONAL_OPTS
    else opts2
  opts3 ++ modules

/-- Claim C4: `nginx_configure_flags` returns exactly the ordered list —
prefix flag first, then `--with-debug` iff `NGX_DEBUG` equals "true", then the
three Linux-only flags iff the effective target OS (the `CARGO_CFG_TARGET_OS`
override, defaulting to the build OS) is linux, then the zlib/pcre/openssl
source-path flags in that order, then the fixed 20-entry module list with its
duplicated `--with-http_slice_module` entry — and `build_info` joins the flags
with single-space separators. -/
theorem nginx_configure_flags_layout (ngxDebug targetOs : Option String)
    (constsOs nginxInstallDir zlibSrcDir opensslSrcDir pcre2SrcDir : String) :
    nginx_configure_flags ngxDebug targetOs constsOs nginxInstallDir zlibSrcDir
        opensslSrcDir pcre2SrcDir =
      [format_source_path "--prefix" nginxInstallDir]
        ++ (if ngxDebug = some "true" then ["--with-debug"] else [])
        ++ (if targetOs.getD constsOs = "linux" then NGX_LINUX_ADDITIONAL_OPTS else [])
        ++ [format_source_path "--with-zlib" zlibSrcDir,
            format_source_path "--with-pcre" pcre2SrcDir,
            format_source_path "--with-openssl" opensslSrcDir]
        ++ NGX_BASE_MODULES ∧
    build_info (nginx_configure_flags ngxDebug targetOs constsOs nginxInstallDir
        zlibSrcDir opensslSrcDir pcre2SrcDir) =
      joinSep " " (nginx_configure_flags ngxDebug targetOs constsOs nginxInstallDir
        zlibSrcDir opensslSrcDir pcre2SrcDir) ∧
    NGX_BASE_MODULES.length = 20 ∧
    NGX_BASE_MODULES.count "--with-http_slice_module" = 2 := by
  refine ⟨?_, rfl, by decide, by decide⟩
  have hd : (ngxDebug.elim false (fun s => s == "true")) =
      decide (ngxDebug = some "true") := by
    cases ngxDebug with
    | none => simp
    | some s => by_cases h : s = "true" <;> simp [h]
  have hl : (targetOs.elim (constsOs == "linux") (fun s => s == "linux")) =
      decide (targetOs.getD constsOs = "linux") := by
    cases targetOs with
    | none => by_cases h : constsOs = "linux" <;> simp [h]
    | some s => by_cases h : s = "linux" <;> simp [h]
  unfold nginx_configure_flags
  rw [hd, hl]
  by_cases hP : ngxDebug = some "true" <;>
    by_cases hQ : targetOs.getD constsOs = "linux" <;>
      simp [hP, hQ, List.append_assoc]

/-- `extract_include_part` inside `parse_includes_from_makefile`:
`line.strip_suffix('\\').map_or(line, |s| s.trim())`. -/
def extract_include_part (line : String) : String :=
  match rs_strip_end_char '\\' line with
  | some s => rs_trim s
  | none => line

/-- `extract_after_i_flag` inside `parse_includes_from_makefile`: the piece of
the line between the first and second `"-I "` occurrence (the first `next()`
on a `split` iterator always succeeds, so this is the element at index 1 when
it exists), passed through `extract_include_part`. -/
def extract_after_i_flag (line : String) : Option String :=
  match (rs_split "-I " line).get? 1 with
  | some part => some (extract_include_part part)
  | none => none

/-- Rust `str::lines()`: split on newline, no trailing empty line, each line
stripped of a trailing carriage return. -/
def rust_lines (s : String) : List String :=
  let ls := splitPred (fun a => a == '\n') s.data
  let ls := match ls.getLast? with
    | some [] => ls.dropLast
    | _ => ls
  ls.map (fun l =>
    match l.reverse with
    | c :: rest => if c == '\r' then String.mk rest.reverse else String.mk l
    | [] => String.mk l)

/-- The line-scanning loop of `parse_includes_from_makefile` (build.rs:607-626)
with its `includes_lines` flag: before the `ALL_INCS` assignment is seen,
lines are skipped; the `ALL_INCS` line flips the flag (contributing its own
`-I` path if present); afterwards each matching line contributes its path and
the first non-matching line breaks the loop. -/
def parse_includes_lines : List String → Bool → List String
  | [], _ => []
  | line :: rest, includesLines =>
    if includesLines then
      match extract_after_i_flag line with
      | some part => part :: parse_includes_lines rest true
      | none => []
    else
      match rs_strip_start "ALL_INCS" line with
      | some stripped =>
        (match extract_after_i_flag stripped with
         | some part => [part]
         | none => []) ++ parse_includes_lines rest true
      | none => parse_includes_lines rest false

/-- `parse_includes_from_makefile` from build.rs.  `makefileDir` stands for
the canonicalized grandparent of the build-file path
(`parent().parent().canonicalize()` — an I/O operation, abstracted as a
parameter); absolute extracted paths (leading slash) are kept as-is, relative
ones are joined onto `makefileDir`. -/
def parse_includes_from_makefile (makefileDir : String) (contents : String) :
    List String :=
  (parse_includes_lines (rust_lines contents) false).map (fun p =>
    if p.data.head? = some '/' then p else path_join makefileDir p)

/-- Claim C5: on a build file `ALL_INCS = -I /a/b \` / `⇥-I /c/d \` followed
by a non-matching line, the parser returns exactly `[/a/b, /c/d]` in order and
takes nothing from lines at or after the first non-matching one (the later
`FOO = -I /e/f` line is ignored); absolute paths are returned as-is and
relative ones are resolved against the canonicalized directory two levels
above the build file (second conjunct). -/
theorem parse_includes_from_makefile_example (makefileDir : String) :
    parse_includes_from_makefile makefileDir
      "ALL_INCS = -I /a/b \\\n\t-I /c/d \\\nCORE_DEPS = src/core/nginx.h\nFOO = -I /e/f" =
      ["/a/b", "/c/d"] ∧
    parse_includes_from_makefile makefileDir
      "ALL_INCS = -I src/core \\\n\t-I objs\nCORE_DEPS = src/core/nginx.h" =
      [path_join makefileDir "src/core", path_join makefileDir "objs"] :=
  ⟨rfl, rfl⟩

/-- `ZLIB_GPG_SERVER_AND_KEY_ID` from build.rs. -/
def ZLIB_GPG_SERVER_AND_KEY_ID : String × String :=
  ("keyserver.ubuntu.com", "783FCD8E58BCAFBA")

/-- `PCRE2_GPG_SERVER_AND_KEY_ID` from build.rs. -/
def PCRE2_GPG_SERVER_AND_KEY_ID : String × String :=
  ("keyserver.ubuntu.com", "9766E084FB0F43D8")

/-- `OPENSSL_GPG_SERVER_AND_KEY_IDS` from build.rs: one identity whose key-id
field is five whitespace-separated key ids (the Rust string-literal line
continuations collapse to single spaces). -/
def OPENSSL_GPG_SERVER_AND_KEY_IDS : String × String :=
  ("keys.openpgp.org",
   "A21FAB74B0088AA361152586B8EF1A6BA9DA2D5C 8657ABB260F056B1E5190839D9C4D26D0E604491 B7C1C14360F353A36862E4D5231C84CDDCC69C45 95A9908DDFA16830BE9FB9003D30A3A9FF1360DC 7953AC1FBC3DC8B3B292393ED5E9E43F7DF9EE8C")

/-- `NGX_GPG_SERVER_AND_KEY_ID` from build.rs. -/
def NGX_GPG_SERVER_AND_KEY_ID : String × String :=
  ("keyserver.ubuntu.com", "A0EA981B66B0D967")

/-- `ALL_SERVERS_AND_PUBLIC_KEY_IDS` from build.rs, in source order. -/
def ALL_SERVERS_AND_PUBLIC_KEY_IDS : List (String × String) :=
  [ZLIB_GPG_SERVER_AND_KEY_ID,
   PCRE2_GPG_SERVER_AND_KEY_ID,
   OPENSSL_GPG_SERVER_AND_KEY_IDS,
   NGX_GPG_SERVER_AND_KEY_ID]

/-- Rust `str::split_whitespace`: split at whitespace runs, no empty pieces. -/
def split_whitespace (s : String) : List String :=
  ((splitPred Char.isWhitespace s.data).filter (fun l => !l.isEmpty)).map String.mk

/-- State of the cache-local `.gnupg` home plus the collected stdout lines:
`markers` holds the names of the `<key_id>.key` marker files that exist. -/
structure GpgState where
  markers : List String
  output : List String
deriving Repr, DecidableEq

/-- The inner per-key loop of `import_gpg_keys` (build.rs:240-265) for one
identity `(server, keyIds)`: for each whitespace-separated key id, invoke
`gpg --recv-keys` (outcome given by `recvOk`); a failure aborts with an error
and no marker; a success prints the import line and then (re)creates the
marker file named after the WHOLE `keyIds` string. -/
def import_keys_loop (recvOk : String → String → Bool) (server keyIds : String) :
    List String → GpgState → GpgState × Except String Unit
  | [], st => (st, Except.ok ())
  | k :: ks, st =>
    if recvOk server k then
      import_keys_loop recvOk server keyIds ks
        { markers := st.markers ++ [keyIds ++ ".key"],
          output := st.output ++ ["Imported GPG key: " ++ k] }
    else
      (st, Except.error ("Failed to import GPG key " ++ k ++ " from server " ++ server))

/-- The outer per-identity loop of `import_gpg_keys`. -/
def import_identities_loop (recvOk : String → String → Bool) :
    List (String × String) → GpgState → GpgState × Except String Unit
  | [], st => (st, Except.ok ())
  | (server, keyIds) :: rest, st =>
    match import_keys_loop recvOk server keyIds (split_whitespace keyIds) st with
    | (st2, Except.ok _) => import_identities_loop recvOk rest st2
    | (st2, Except.error e) => (st2, Except.error e)

/-- `import_gpg_keys(cache_dir)` from build.rs.  `gpg` is the `which("gpg")`
result; when it is `none` the whole body is skipped (no output, `Ok`).
Identities whose marker file `<key_id>.key` already exists are filtered out
(the Rust filter is a lazy iterator, but the four key-id strings are distinct,
so filtering eagerly up front is equivalent). -/
def import_gpg_keys (gpg : Option String) (recvOk : String → String → Bool)
    (st : GpgState) : GpgState × Except String Unit :=
  match gpg with
  | none => (st, Except.ok ())
  | some _ =>
    import_identities_loop recvOk
      (ALL_SERVERS_AND_PUBLIC_KEY_IDS.filter
        (fun p => !(st.markers.contains (p.2 ++ ".key"))))
      st

/-- Claim C7 counterexample: with gpg unavailable, `import_gpg_keys` returns
success but surfaces NO warning at all — its output is empty — contradicting
the claim that each skipped step surfaces an observable warning. -/
theorem import_gpg_keys_silent_skip_cex :
    (import_gpg_keys none (fun _ _ => false)
      { markers := [], output := [] }).1.output = [] ∧
    isErr (import_gpg_keys none (fun _ _ => false)
      { markers := [], output := [] }).2 = false :=
  ⟨rfl, rfl⟩

/-- Claim C7 (amended): whenever gpg is unavailable, each of
`import_gpg_keys`, `verify_signature_file` and `verify_archive_signature`
returns success without invoking the tool (the result does not depend on any
tool outcome); `verify_signature_file` and `verify_archive_signature` print a
skip warning, but `import_gpg_keys` skips silently, leaving its state — and
hence its output — unchanged. -/
theorem gpg_unavailable_degrades_without_verification
    (recvOk : String → String → Bool) (st : GpgState)
    (listPacketsOk : Bool) (sigPath : String) (verifyOk : Bool) (archPath : String) :
    import_gpg_keys none recvOk st = (st, Except.ok ()) ∧
    verify_signature_file none listPacketsOk sigPath =
      (["GPG not found, skipping signature file verification"], Except.ok ()) ∧
    verify_archive_signature none verifyOk archPath sigPath =
      (["GPG not found, skipping signature verification"], Except.ok ()) :=
  ⟨rfl, rfl, rfl⟩

/-- `recv-keys` outcome for the C9 scenario: every retrieval succeeds except
the second openssl key id. -/
def recvOkFailSecondOpensslKey : String → String → Bool :=
  fun _ key => key != "8657ABB260F056B1E5190839D9C4D26D0E604491"

set_option maxRecDepth 4000

/-- Claim C9: starting from an empty cache, a run in which the second openssl
key retrieval fails (after zlib, pcre2 and the first openssl key succeeded)
returns an error, yet the single openssl marker file — named after the whole
five-id string — already exists; consequently every subsequent run filters
the openssl identity out (leaving only the nginx identity to import), so a
second run with all retrievals succeeding imports only the nginx key and
never the remaining four openssl keys. -/
theorem import_gpg_keys_openssl_marker_premature :
    isErr (import_gpg_keys (some "gpg") recvOkFailSecondOpensslKey
      { markers := [], output := [] }).2 = true ∧
    (import_gpg_keys (some "gpg") recvOkFailSecondOpensslKey
      { markers := [], output := [] }).1.markers.contains
      (OPENSSL_GPG_SERVER_AND_KEY_IDS.2 ++ ".key") = true ∧
    ALL_SERVERS_AND_PUBLIC_KEY_IDS.filter
      (fun p => !((import_gpg_keys (some "gpg") recvOkFailSecondOpensslKey
        { markers := [], output := [] }).1.markers.contains (p.2 ++ ".key"))) =
      [NGX_GPG_SERVER_AND_KEY_ID] ∧
    isErr (import_gpg_keys (some "gpg") (fun _ _ => true)
      (import_gpg_keys (some "gpg") recvOkFailSecondOpensslKey
        { markers := [], output := [] }).1).2 = false ∧
    (import_gpg_keys (some "gpg") (fun _ _ => true)
      (import_gpg_keys (some "gpg") recvOkFailSecondOpensslKey
        { markers := [], output := [] }).1).1.output =
      (import_gpg_keys (some "gpg") recvOkFailSecondOpensslKey
        { markers := [], output := [] }).1.output ++
      ["Imported GPG key: A0EA981B66B0D967"] := by
  refine ⟨rfl, by decide, by decide, rfl, by decide⟩

/-- One entry of a tar archive as `extract_archive` sees it:
`readErr` models an entry the `entries()` iterator yields as `Err` (these are
dropped by `filter_map(|e| e.ok())`), and `entry ok` an entry that is read
successfully and whose `unpack` call succeeds iff `ok` (entry paths are taken
to be readable; `entry.path().unwrap()` is not the behaviour under study). -/
inductive TarEntry where
  | readErr : TarEntry
  | entry : Bool → TarEntry
deriving Repr, DecidableEq

/-- The per-entry unpack loop of `extract_archive` (build.rs:397-404):
read-failing entries are silently dropped by `filter_map(|e| e.ok())`, and
each surviving entry is unpacked with `.unwrap()` — an unpack failure panics
(`none`). -/
def unpack_entries : List TarEntry → Option Unit
  | [] => some ()
  | TarEntry.readErr :: rest => unpack_entries rest
  | TarEntry.entry ok :: rest => if ok then unpack_entries rest else none

/-- `archive_path.file_name() ... rsplitn(3, '.').last()` in `extract_archive`:
the archive file name with its last two dot-separated components removed
(`rsplitn(3, _)` splits off at most two pieces from the right, and `last()`
is the leftover). -/
def stem (fileName : String) : String :=
  let parts := splitPred (fun a => a == '.') fileName.data
  joinSep "." ((parts.map String.mk).take (max 1 (parts.length - 2)))

/-- Rust `str::split_once(c)`: `some (before, after)` at the first occurrence
of `c`, `none` when `c` does not occur. -/
def split_once (c : Char) (s : String) : Option (String × String) :=
  if s.data.contains c then
    some (String.mk (s.data.takeWhile (fun a => a != c)),
          String.mk ((s.data.dropWhile (fun a => a != c)).drop 1))
  else none

/-- `extract_archive(archive_path, extract_output_base_dir)` from build.rs.
`fileName` is the archive path's final component, `dirExists` whether the
output directory `baseDir/<stem>` already exists (in which case extraction is
skipped), `entries` the archive's entries.  `none` models a panic: either the
`unwrap_or_else(.. panic ..)` when the stem has no hyphen for the
dependency-name derivation, or the `.unwrap()` on a failing per-entry
unpack. -/
def extract_archive (fileName baseDir : String) (dirExists : Bool)
    (entries : List TarEntry) : Option (String × String) :=
  match split_once '-' (stem fileName) with
  | none => none
  | some (name, _) =>
    if dirExists then some (name, path_join baseDir (stem fileName))
    else
      match unpack_entries entries with
      | none => none
      | some _ => some (name, path_join baseDir (stem fileName))

/-- Claim C8 counterexample: extracting `zlib-1.3.tar.gz` into a not yet
existing target directory from an archive whose single entry fails to unpack
does not return success — the `.unwrap()` panics (modelled `none`). -/
theorem extract_archive_unpack_failure_cex :
    extract_archive "zlib-1.3.tar.gz" ".cache/src" false [TarEntry.entry false] =
      none :=
  rfl

theorem unpack_entries_ok (l : List TarEntry)
    (h : ∀ e ∈ l, e ≠ TarEntry.entry false) : unpack_entries l = some () := by
  induction l with
  | nil => rfl
  | cons e rest ih =>
    cases e with
    | readErr =>
      simpa [unpack_entries] using ih (fun x hx => h x (List.mem_cons_of_mem _ hx))
    | entry ok =>
      cases ok with
      | true =>
        simpa [unpack_entries] using ih (fun x hx => h x (List.mem_cons_of_mem _ hx))
      | false => exact absurd rfl (h _ (List.mem_cons_self _ _))

/-- Claim C8 (amended): during extraction of `zlib-1.3.tar.gz` into a not yet
existing target directory, entries that fail to be READ from the archive's
entry iterator are silently skipped and `extract_archive` still returns
success (dependency name and output directory); but an entry whose unpack
call itself fails makes `extract_archive` panic instead of returning. -/
theorem extract_archive_skips_read_errors (baseDir : String)
    (entries : List TarEntry) (h : ∀ e ∈ entries, e ≠ TarEntry.entry false) :
    extract_archive "zlib-1.3.tar.gz" baseDir false entries =
      some ("zlib", path_join baseDir "zlib-1.3") := by
  have hu := unpack_entries_ok entries h
  unfold extract_archive
  rw [show split_once '-' (stem "zlib-1.3.tar.gz") = some ("zlib", "1.3") from rfl]
  simp only [Bool.false_eq_true, if_false, hu]
  rfl

/-- Witness for the amended claim C8: an archive with one read-failing entry
and one good entry extracts successfully. -/
theorem extract_archive_skips_read_errors_witness :
    extract_archive "zlib-1.3.tar.gz" ".cache/src" false
      [TarEntry.readErr, TarEntry.entry true] =
      some ("zlib", path_join ".cache/src" "zlib-1.3") :=
  extract_archive_skips_read_errors ".cache/src"
    [TarEntry.readErr, TarEntry.entry true] (by decide)

/-- Claim C10: `extract_archive` is partial at its public interface — when
the archive file-name stem (the text before the last two dot-separated
components) contains no hyphen, the dependency-name derivation panics
(`none`) for every base directory, directory state and entry list; when the
stem does contain a hyphen, `split_once` returns the split at the first
hyphen (so that branch cannot panic) and any successful extraction returns
the text before the first hyphen as the dependency name. -/
theorem extract_archive_name_derivation (fileName baseDir : String)
    (dirExists : Bool) (entries : List TarEntry) :
    ((stem fileName).data.contains '-' = false →
      extract_archive fileName baseDir dirExists entries = none) ∧
    ((stem fileName).data.contains '-' = true →
      split_once '-' (stem fileName) =
        some (String.mk ((stem fileName).data.takeWhile (fun a => a != '-')),
              String.mk (((stem fileName).data.dropWhile (fun a => a != '-')).drop 1)) ∧
      ∀ p, extract_archive fileName baseDir dirExists entries = some p →
        p.1 = String.mk ((stem fileName).data.takeWhile (fun a => a != '-'))) := by
  constructor
  · intro h
    unfold extract_archive split_once
    rw [h]
    simp
  · intro h
    have hsplit : split_once '-' (stem fileName) =
        some (String.mk ((stem fileName).data.takeWhile (fun a => a != '-')),
              String.mk (((stem fileName).data.dropWhile (fun a => a != '-')).drop 1)) := by
      unfold split_once
      rw [h]
      simp
    refine ⟨hsplit, ?_⟩
    intro p hp
    unfold extract_archive at hp
    rw [hsplit] at hp
    cases hd : dirExists with
    | true =>
      rw [hd] at hp
      simp at hp
      subst hp
      rfl
    | false =>
      rw [hd] at hp
      cases hu : unpack_entries entries with
      | none =>
        rw [hu] at hp
        simp at hp
      | some u =>
        rw [hu] at hp
        simp at hp
        subst hp
        rfl

/-- Witness for claim C10: `pcre2-10.42.tar.gz` has stem `pcre2-10.42`; the
name derivation cannot panic and yields `pcre2`, while the hyphen-free stem of
`openssl.tar.gz` makes extraction panic. -/
theorem extract_archive_name_derivation_witness :
    split_once '-' (stem "pcre2-10.42.tar.gz") = some ("pcre2", "10.42") ∧
    extract_archive "openssl.tar.gz" ".cache/src" false [] = none := by
  constructor
  · exact ((extract_archive_name_derivation "pcre2-10.42.tar.gz" ".cache/src" false
      []).2 (by decide)).1
  · exact (extract_archive_name_derivation "openssl.tar.gz" ".cache/src" false
      []).1 (by decide)
